import Mathlib

/-!
Shallow embedding of the credential / session-lifecycle subsystem of the
online_complaint_management_system repository (FastAPI + SQLAlchemy), covering:

* `src/app/db/models.py`        — User / Token / OTP rows
* `src/app/utils/security.py`   — JWT codec, password hashing wrappers
* `src/app/crud/token.py`       — token persistence and revocation
* `src/app/crud/otp.py`         — OTP persistence
* `src/app/crud/user.py`        — user lookups
* `src/app/dependencies.py`     — authenticate / get_current_user gates
* `src/app/routers/auth.py`     — login, refresh, logout, OTP and password routes
* `src/app/schemas/user.py`     — password policy validators

Persistent storage is modelled as an explicit `Store` value threaded through each
operation; each route returns `(Except Http α) × Store` (the JSON error response
or the success payload, together with the post-state of the database).
-/

deriving instance DecidableEq for Except

namespace OCMS

/-- `app/enums.py`: `TokenType` with ACCESS and REFRESH members. -/
inductive TokenType where
  | ACCESS
  | REFRESH
deriving Repr, DecidableEq

/-- `app/db/models.py` `User` row. Fields not read by any modelled operation
(firstname, lastname, school, department, is_student, last_login, created_at,
relationship attributes) are omitted; `id` and clock values are modelled as `Nat`. -/
structure User where
  id : Nat
  username : String
  email : String
  hashed_password : String
  is_active : Bool
  is_email_verified : Bool
  is_superuser : Bool
deriving Repr, DecidableEq

/-- `app/db/models.py` `Token` row. `jti` is unique at storage level;
`access_jti` is populated only on REFRESH rows. -/
structure Token where
  jti : String
  user_id : Nat
  access_jti : Option String
  expires_at : Nat
  revoked : Bool
  revoked_at : Option Nat
  reason : Option String
  type : TokenType
deriving Repr, DecidableEq

/-- `app/db/models.py` `OTP` row: at most one row per email (unique column);
`otp` stores the bcrypt-style hash of the code. -/
structure Otp where
  id : Nat
  email : String
  otp : String
deriving Repr, DecidableEq

/-- The persistent database state visible to the auth subsystem. -/
structure Store where
  users : List User
  tokens : List Token
  otps : List Otp
deriving Repr, DecidableEq

/-- An HTTP error response (`JSONResponse` / `HTTPException`): status code and
the `detail` string of the body. -/
structure Http where
  status : Nat
  detail : String
deriving Repr, DecidableEq

/-- A bearer token string as far as the codec can observe it: either an
unparsable string, or a signed payload `{sub, jti, exp}` whose signature is
valid or not.  (`create_token` in `app/utils/security.py` always embeds `sub`
and `jti`, so a payload missing them is folded into `malformed`.) -/
inductive Cred where
  | malformed
  | signed (sub : String) (jti : String) (exp : Nat) (sigOk : Bool)
deriving Repr, DecidableEq

/-! ### settings (`app/core/config.py`) — fixed process-wide configuration -/

def access_token_expiry_minutes : Nat := 15
def refresh_token_expiry_days : Nat := 7
def reset_token_expiry_minutes : Nat := 5

/-! ### `app/utils/security.py` -/

/-- Model of the passlib CryptContext hash (`get_password_hash`): an injective
tagging function standing in for the adaptive-cost hash. -/
def get_password_hash (password : String) : String :=
  "$bcrypt$" ++ password

/-- `verify_password(plain, hashed)` — the library verify succeeds exactly when
`hashed` is the hash of `plain`. -/
def verify_password (plain_password hashed_password : String) : Bool :=
  get_password_hash plain_password == hashed_password

/-- Python `str.upper()`, written on the character list. -/
def upper (s : String) : String := String.mk (s.data.map Char.toUpper)

/-- `create_token(data={"sub": sub}, expires_at)`: sign `{sub, jti, exp}` where
`jti` is the fresh uuid4 produced by the CSPRNG (passed in as an oracle) —
returns the encoded string and the jti. -/
def create_token (sub : String) (jti : String) (exp : Nat) : Cred × String :=
  (Cred.signed sub jti exp true, jti)

/-- `verify_payload(token)`: PyJWT decode pinned to the configured algorithm.
Fails on unparsable input, bad signature or expiry; returns `(sub, jti)`. -/
def verify_payload (token : Cred) (now : Nat) : Except String (String × String) :=
  match token with
  | Cred.malformed => Except.error "Token is invalid"
  | Cred.signed sub jti exp sigOk =>
      if !sigOk then Except.error "Token is invalid"
      else if exp ≤ now then Except.error "Token has expired"
      else Except.ok (sub, jti)

/-! ### `app/crud/user.py`, `app/crud/token.py`, `app/crud/otp.py` lookups -/

/-- `get_user_by_email`: `select(User).filter_by(email=email)`. -/
def get_user_by_email (s : Store) (email : String) : Option User :=
  s.users.find? (fun u => u.email == email)

/-- `get_user_by_username`: `select(User).filter_by(username=username)`. -/
def get_user_by_username (s : Store) (username : String) : Option User :=
  s.users.find? (fun u => u.username == username)

/-- `get_user_by_id`: `select(User).filter_by(id=user_id)`. -/
def get_user_by_id (s : Store) (user_id : Nat) : Option User :=
  s.users.find? (fun u => u.id == user_id)

/-- `get_token_by_jti`: `select(Token).filter_by(jti=jti)`. -/
def get_token_by_jti (s : Store) (jti : String) : Option Token :=
  s.tokens.find? (fun t => t.jti == jti)

/-- `get_otp_by_email`: `select(OTP).filter(OTP.email == email)`. -/
def get_otp_by_email (s : Store) (email : String) : Option Otp :=
  s.otps.find? (fun o => o.email == email)

/-! ### `app/crud/token.py` writes -/

/-- `session.add(token); commit()` — the INSERT fails with `IntegrityError`
when the unique `jti` column already holds this value. -/
def insert_token (s : Store) (tok : Token) : Except String Store :=
  if s.tokens.any (fun t => t.jti == tok.jti) then
    Except.error "IntegrityError: UNIQUE constraint failed: tokens.jti"
  else
    Except.ok { s with tokens := s.tokens ++ [tok] }

/-- `Token.revoke(reason)` followed by `session.commit()` (`revoke_token`):
sets revoked/revoked_at/reason on the row identified by `jti`. -/
def revoke_token (s : Store) (jti : String) (reason : Option String) (now : Nat) :
    Store :=
  { s with
    tokens := s.tokens.map (fun t =>
      if t.jti == jti then
        { t with revoked := true, revoked_at := some now, reason := reason }
      else t) }

/-- `revoke_active_tokens(user_id, reason)`: raises `ValueError` when the user
does not exist; otherwise a bulk UPDATE of every row with this owner and
`revoked=False`, with a shared timestamp and reason. -/
def revoke_active_tokens (s : Store) (user_id : Nat) (reason : String) (now : Nat) :
    Except String Store :=
  match get_user_by_id s user_id with
  | none => Except.error "ValueError: user not found"
  | some _ =>
      Except.ok { s with
        tokens := s.tokens.map (fun t =>
          if t.user_id == user_id && t.revoked == false then
            { t with revoked := true, reason := some reason, revoked_at := some now }
          else t) }

/-- `delete_all_revoked_tokens`: `delete(Token).filter_by(revoked=True)`. -/
def delete_all_revoked_tokens (s : Store) : Store :=
  { s with tokens := s.tokens.filter (fun t => t.revoked == false) }

/-! ### `app/crud/otp.py` writes -/

/-- `create_otp`: insert a fresh OTP row (fresh primary key from the oracle). -/
def create_otp (s : Store) (newId : Nat) (email : String) (otpHash : String) :
    Store :=
  { s with otps := s.otps ++ [{ id := newId, email := email, otp := otpHash }] }

/-- `delete_otp`: `delete(OTP).filter(OTP.id == otp.id)`. -/
def delete_otp (s : Store) (o : Otp) : Store :=
  { s with otps := s.otps.filter (fun x => x.id != o.id) }

/-! ### `app/schemas/user.py` password validators -/

/-- The fixed special-character set of both validators
(`"!@#$%^&*()-_+="`, as a character list). -/
def special_chars : List Char := "!@#$%^&*()-_+=".data

/-- `UserCreate.password_validator` / `PasswordUpdate.password_validator`
(the two bodies are identical).  The checks, in source order: a digit, an
uppercase letter, a lowercase letter, a special character, no space.  The
`Field` description promises a minimum length of 8 but no check in the
validator (nor a `min_length` constraint on the `Field`) enforces it. -/
def password_validator (value : String) : Except String String :=
  if !(value.data.any (fun c => c.isDigit)) then
    Except.error "Password must contain at least one digit"
  else if !(value.data.any (fun c => c.isUpper)) then
    Except.error "Password must contain at least one uppercase letter"
  else if !(value.data.any (fun c => c.isLower)) then
    Except.error "Password must contain at least one lowercase letter"
  else if !(value.data.any (fun c => special_chars.contains c)) then
    Except.error "Password must contain at least one special character"
  else if value.data.contains ' ' then
    Except.error "Password must not contain spaces"
  else
    Except.ok value

/-! ### `app/dependencies.py` -/

/-- `authenticate`: look up the user by email and verify the password;
`None` on either failure (the caller cannot tell the two apart). -/
def authenticate (s : Store) (email password : String) : Option User :=
  match get_user_by_email s email with
  | none => none
  | some u =>
      if !(verify_password password u.hashed_password) then none
      else some u

/-- The detail string of the PyJWTError handlers in `app/dependencies.py`
and the logout / reset-password routes. -/
def could_not_validate (e : String) : String :=
  "Could not validate credentials because of the following error: " ++ e

/-- `get_current_user(token)`: decode, ledger lookup, revoked check, user
lookup, email-verified check.  NOTE (faithful to the source): in the
user-missing branch the source calls `revoke_token(...)` WITHOUT `await`
(`app/dependencies.py:159`), so the coroutine is never executed and the store
is unchanged on that path. -/
def get_current_user (token : Cred) (now : Nat) (s : Store) :
    (Except Http User) × Store :=
  match verify_payload token now with
  | Except.error e => (Except.error ⟨401, could_not_validate e⟩, s)
  | Except.ok (username, jti) =>
    match get_token_by_jti s jti with
    | none => (Except.error ⟨401, "Invalid token"⟩, s)
    | some tok =>
      if tok.revoked then (Except.error ⟨401, "Token has been revoked"⟩, s)
      else
        match get_user_by_username s username with
        | none =>
            -- `revoke_token(session=..., token=token, reason="User not found,
            -- token might be compromised")` is not awaited: no store write.
            (Except.error ⟨401, "User not found, token invalid"⟩, s)
        | some user =>
            if !user.is_email_verified then
              (Except.error ⟨401, "Email not verified"⟩, s)
            else (Except.ok user, s)

/-- `get_current_active_user`: the `get_current_user` gate followed by the
active check, which raises HTTP 400 "Inactive user". -/
def get_current_active_user (token : Cred) (now : Nat) (s : Store) :
    (Except Http User) × Store :=
  match get_current_user token now s with
  | (Except.error e, s') => (Except.error e, s')
  | (Except.ok u, s') =>
      if !u.is_active then (Except.error ⟨400, "Inactive user"⟩, s')
      else (Except.ok u, s')

/-! ### `app/routers/auth.py` -/

/-- The success payload of the login and refresh routes (`schemas/token.py`
`Token` schema): access token, its expiry, optional refresh token and expiry. -/
structure TokenSchema where
  access_token : Cred
  access_token_expires_at : Nat
  refresh_token : Option Cred
  refresh_token_expires_at : Option Nat
deriving Repr, DecidableEq

/-- `generate_token_pair` (`app/crud/token.py`): mint ACCESS and REFRESH JWTs,
insert the ACCESS row, then the REFRESH row with `access_jti` pointing at the
ACCESS row.  `accessJti`/`refreshJti` are the uuid4 oracle values.  Each insert
commits separately; an `IntegrityError` propagates out of the route (no
handler), with whatever was already committed persisted. -/
def generate_token_pair (s : Store) (username : String) (user_id : Nat)
    (accessJti refreshJti : String) (now : Nat) :
    (Except Http TokenSchema) × Store :=
  let accessExp := now + access_token_expiry_minutes
  let refreshExp := now + refresh_token_expiry_days
  let (accessTok, _) := create_token username accessJti accessExp
  let (refreshTok, _) := create_token username refreshJti refreshExp
  let accessRow : Token :=
    { jti := accessJti, user_id := user_id, access_jti := none,
      expires_at := accessExp, revoked := false, revoked_at := none,
      reason := none, type := TokenType.ACCESS }
  let refreshRow : Token :=
    { jti := refreshJti, user_id := user_id, access_jti := some accessJti,
      expires_at := refreshExp, revoked := false, revoked_at := none,
      reason := none, type := TokenType.REFRESH }
  match insert_token s accessRow with
  | Except.error e => (Except.error ⟨500, e⟩, s)
  | Except.ok s1 =>
    match insert_token s1 refreshRow with
    | Except.error e => (Except.error ⟨500, e⟩, s1)
    | Except.ok s2 =>
        (Except.ok { access_token := accessTok,
                     access_token_expires_at := accessExp,
                     refresh_token := some refreshTok,
                     refresh_token_expires_at := some refreshExp }, s2)

/-- `login_for_access_token` (POST /api/auth/token): authenticate, then mint
the pair.  Both failure causes of `authenticate` yield the same
400 "Incorrect email or password" response. -/
def login_for_access_token (s : Store) (email password : String)
    (accessJti refreshJti : String) (now : Nat) :
    (Except Http TokenSchema) × Store :=
  match authenticate s email password with
  | none => (Except.error ⟨400, "Incorrect email or password"⟩, s)
  | some u => generate_token_pair s u.username u.id accessJti refreshJti now

/-- `refresh_access_token` (POST /api/auth/token/refresh).  `newJti` is the
uuid4 oracle for the minted ACCESS token.  The three writes — revoke the old
access row, insert the new ACCESS row, relink the refresh row — are three
separate commits in the source; an `IntegrityError` from the insert is caught
by the blanket `except Exception` and returned as a 400 response, leaving the
already-committed revoke in place. -/
def refresh_access_token (authorization : Cred) (now : Nat) (newJti : String)
    (s : Store) : (Except Http TokenSchema) × Store :=
  match verify_payload authorization now with
  | Except.error e =>
      (Except.error ⟨401, "Could not validate credentials: " ++ e⟩, s)
  | Except.ok (username, _jti) =>
    match get_token_by_jti s _jti with
    | none => (Except.error ⟨401, "Invalid token or token has been revoked"⟩, s)
    | some stored_token =>
      if stored_token.revoked then
        (Except.error ⟨401, "Invalid token or token has been revoked"⟩, s)
      else
        match get_user_by_username s username with
        | none => (Except.error ⟨401, "Invalid token"⟩, s)
        | some user =>
          let accessExp := now + access_token_expiry_minutes
          let (access_token_str, _) := create_token username newJti accessExp
          -- old_token = get_token_by_jti(stored_token.access_jti); a null
          -- access_jti (ACCESS row presented) matches no row.
          match stored_token.access_jti.bind (get_token_by_jti s) with
          | none =>
              (Except.error ⟨401, "Invalid token, refresh token not found"⟩, s)
          | some old_token =>
            -- commit 1: revoke the old access row
            let s1 := revoke_token s old_token.jti (some "Refresh token used") now
            -- commit 2: insert the new ACCESS row (unique-jti constraint)
            let newRow : Token :=
              { jti := newJti, user_id := user.id, access_jti := none,
                expires_at := accessExp, revoked := false, revoked_at := none,
                reason := none, type := TokenType.ACCESS }
            match insert_token s1 newRow with
            | Except.error e => (Except.error ⟨400, e⟩, s1)
            | Except.ok s2 =>
              -- commit 3: stored_token.access_jti = new access jti
              let s3 := { s2 with tokens := s2.tokens.map (fun t =>
                  if t.jti == stored_token.jti then { t with access_jti := some newJti }
                  else t) }
              (Except.ok { access_token := access_token_str,
                           access_token_expires_at := accessExp,
                           refresh_token := none,
                           refresh_token_expires_at := none }, s3)

/-- `logout` (POST /api/auth/logout): decode, ledger lookup, revoked check,
then revoke with reason "User logged out". -/
def logout (token : Cred) (now : Nat) (s : Store) :
    (Except Http Unit) × Store :=
  match verify_payload token now with
  | Except.error e => (Except.error ⟨401, could_not_validate e⟩, s)
  | Except.ok (_, jti) =>
    match get_token_by_jti s jti with
    | none => (Except.error ⟨401, "Invalid token"⟩, s)
    | some tok =>
      if tok.revoked then
        (Except.error ⟨401, "Token has been revoked"⟩, s)
      else (Except.ok (), revoke_token s tok.jti (some "User logged out") now)

/-- `logout_all` (POST /api/auth/logout/all): the active-user gate, then
`revoke_active_tokens`; a `ValueError` from the latter has no handler (500). -/
def logout_all (token : Cred) (now : Nat) (s : Store) :
    (Except Http Unit) × Store :=
  match get_current_active_user token now s with
  | (Except.error e, s') => (Except.error e, s')
  | (Except.ok u, s') =>
    match revoke_active_tokens s' u.id "User logged out from all devices" now with
    | Except.error e => (Except.error ⟨500, e⟩, s')
    | Except.ok s'' => (Except.ok (), s'')

/-- `send_email_verification` (POST /api/auth/send-email-verification):
user lookup, already-verified check, delete any existing OTP row, insert the
hash of the freshly generated code (`otpCode` is the CSPRNG oracle, `newOtpId`
the fresh primary key).  Email delivery is outside the store. -/
def send_email_verification (email : String) (otpCode : String) (newOtpId : Nat)
    (s : Store) : (Except Http Unit) × Store :=
  match get_user_by_email s email with
  | none => (Except.error ⟨404, "User not found, please sign up"⟩, s)
  | some user =>
    if user.is_email_verified then
      (Except.error ⟨400, "Email already verified"⟩, s)
    else
      let s1 := match get_otp_by_email s email with
        | some o => delete_otp s o
        | none => s
      (Except.ok (), create_otp s1 newOtpId email (get_password_hash otpCode))

/-- `verify_email` (POST /api/auth/verify-email): user lookup, already-verified
check, OTP lookup, hash compare of the upper-cased input; on match mark the
user verified (commit) and delete the OTP row. -/
def verify_email (email : String) (otp : String) (s : Store) :
    (Except Http User) × Store :=
  match get_user_by_email s email with
  | none => (Except.error ⟨404, "User not found, please sign up"⟩, s)
  | some user =>
    if user.is_email_verified then
      (Except.error ⟨400, "Email already verified"⟩, s)
    else
      match get_otp_by_email s email with
      | none => (Except.error ⟨404, "OTP not found"⟩, s)
      | some otp_data =>
        if !(verify_password (upper otp) otp_data.otp) then
          (Except.error ⟨400, "Invalid OTP"⟩, s)
        else
          let verified := { user with is_email_verified := true }
          let s1 := { s with users := s.users.map (fun v =>
              if v.id == user.id then { v with is_email_verified := true } else v) }
          let s2 := delete_otp s1 otp_data
          (Except.ok verified, s2)

/-- `forgot_password` (POST /api/auth/forgot-password): user lookup, then mint
a signed reset token that is NOT written to the token table — no store write. -/
def forgot_password (email : String) (resetJti : String) (now : Nat) (s : Store) :
    (Except Http Cred) × Store :=
  match get_user_by_email s email with
  | none => (Except.error ⟨404, "User not found"⟩, s)
  | some user =>
      let (reset_token, _) := create_token user.username resetJti
        (now + reset_token_expiry_minutes)
      (Except.ok reset_token, s)

/-- `reset_password` (POST /api/auth/reset-password): validate the new password
(`PasswordUpdate`), decode the reset token, user lookup, same-password check,
then persist the new hash. -/
def reset_password (authorization : Cred) (password : String) (now : Nat)
    (s : Store) : (Except Http User) × Store :=
  match password_validator password with
  | Except.error e => (Except.error ⟨422, e⟩, s)
  | Except.ok pw =>
    match verify_payload authorization now with
    | Except.error e => (Except.error ⟨401, could_not_validate e⟩, s)
    | Except.ok (username, _) =>
      match get_user_by_username s username with
      | none => (Except.error ⟨401, "Invalid token"⟩, s)
      | some user =>
        if verify_password pw user.hashed_password then
          (Except.error ⟨400, "New password cannot be the same as the old password"⟩, s)
        else
          let updated := { user with hashed_password := get_password_hash pw }
          (Except.ok updated, { s with users := s.users.map (fun v =>
              if v.id == user.id then { v with hashed_password := get_password_hash pw }
              else v) })

/-- `change_password` (POST /api/auth/change-password): the active-user gate,
validate the new password, verify the old one, reject equal old/new, persist. -/
def change_password (token : Cred) (new_password old_password : String)
    (now : Nat) (s : Store) : (Except Http Unit) × Store :=
  match get_current_active_user token now s with
  | (Except.error e, s') => (Except.error e, s')
  | (Except.ok user, s') =>
    match password_validator new_password with
    | Except.error e => (Except.error ⟨422, e⟩, s')
    | Except.ok npw =>
      if !(verify_password old_password user.hashed_password) then
        (Except.error ⟨400, "Incorrect old password"⟩, s')
      else if npw == old_password then
        (Except.error ⟨400, "New password cannot be the same as the old password"⟩, s')
      else
        (Except.ok (), { s' with users := s'.users.map (fun v =>
            if v.id == user.id then { v with hashed_password := get_password_hash npw }
            else v) })

/-- `signup_staff` / `signup_student` (their bodies differ only in the
`is_student` flag, which no modelled operation reads): validate the form
(password policy), reject an existing email, insert the user, delete any
existing OTP row for the email, insert the hash of the fresh code. -/
def signup (username email password : String) (otpCode : String)
    (newUserId newOtpId : Nat) (s : Store) : (Except Http Unit) × Store :=
  match password_validator password with
  | Except.error e => (Except.error ⟨400, e⟩, s)
  | Except.ok pw =>
    match get_user_by_email s email with
    | some _ => (Except.error ⟨400, "User with this email already exists"⟩, s)
    | none =>
      let user : User :=
        { id := newUserId, username := username, email := email,
          hashed_password := get_password_hash pw, is_active := true,
          is_email_verified := false, is_superuser := false }
      let s1 := { s with users := s.users ++ [user] }
      let s2 := match get_otp_by_email s1 email with
        | some o => delete_otp s1 o
        | none => s1
      (Except.ok (), create_otp s2 newOtpId email (get_password_hash otpCode))

/-! ### The operations of the interface, as one step relation (for the
whole-interface revocation-monotonicity invariant) -/

/-- One external call of the system, with its inputs and its oracle values
(fresh jtis / ids, OTP code, clock). -/
inductive Op where
  | opLogin (email password accessJti refreshJti : String) (now : Nat)
  | opRefresh (authorization : Cred) (now : Nat) (newJti : String)
  | opLogout (token : Cred) (now : Nat)
  | opLogoutAll (token : Cred) (now : Nat)
  | opPurgeRevoked
  | opSignup (username email password otpCode : String) (newUserId newOtpId : Nat)
  | opSendEmailVerification (email otpCode : String) (newOtpId : Nat)
  | opVerifyEmail (email otp : String)
  | opForgotPassword (email resetJti : String) (now : Nat)
  | opResetPassword (authorization : Cred) (password : String) (now : Nat)
  | opChangePassword (token : Cred) (newPw oldPw : String) (now : Nat)
  | opResolvePrincipal (token : Cred) (now : Nat)

/-- The store transition of each operation (the `.snd` of the route call). -/
def applyOp (op : Op) (s : Store) : Store :=
  match op with
  | Op.opLogin e pw aj rj now => (login_for_access_token s e pw aj rj now).snd
  | Op.opRefresh a now nj => (refresh_access_token a now nj s).snd
  | Op.opLogout t now => (logout t now s).snd
  | Op.opLogoutAll t now => (logout_all t now s).snd
  | Op.opPurgeRevoked => delete_all_revoked_tokens s
  | Op.opSignup un e pw oc nu no => (signup un e pw oc nu no s).snd
  | Op.opSendEmailVerification e oc no => (send_email_verification e oc no s).snd
  | Op.opVerifyEmail e o => (verify_email e o s).snd
  | Op.opForgotPassword e rj now => (forgot_password e rj now s).snd
  | Op.opResetPassword a pw now => (reset_password a pw now s).snd
  | Op.opChangePassword t np op now => (change_password t np op now s).snd
  | Op.opResolvePrincipal t now => (get_current_user t now s).snd

/-! ### Concrete fixtures used by witnesses and counterexamples -/

/-- A fully verified, active user. -/
def alice : User :=
  { id := 1, username := "alice", email := "alice@example.com",
    hashed_password := get_password_hash "Secret1!", is_active := true,
    is_email_verified := true, is_superuser := false }

/-- The live ACCESS row paired with `tokR1`. -/
def tokA1 : Token :=
  { jti := "jA1", user_id := 1, access_jti := none, expires_at := 100,
    revoked := false, revoked_at := none, reason := none,
    type := TokenType.ACCESS }

/-- A REFRESH row pointing at `tokA1`. -/
def tokR1 : Token :=
  { jti := "jR1", user_id := 1, access_jti := some "jA1", expires_at := 1000,
    revoked := false, revoked_at := none, reason := none,
    type := TokenType.REFRESH }

/-- Store as it looks right after `alice` logs in. -/
def store0 : Store := { users := [alice], tokens := [tokA1, tokR1], otps := [] }

/-- The bearer string of `tokR1`. -/
def credR1 : Cred := Cred.signed "alice" "jR1" 1000 true

/-- The bearer string of `tokA1`. -/
def credA1 : Cred := Cred.signed "alice" "jA1" 1000 true

/-- A user with an unverified email, about to confirm an OTP. -/
def bob : User :=
  { id := 2, username := "bob", email := "bob@example.com",
    hashed_password := get_password_hash "Secret1!", is_active := true,
    is_email_verified := false, is_superuser := false }

/-- Store with `bob` and a stored OTP hash for code `ABC123`. -/
def storeB : Store :=
  { users := [bob], tokens := [],
    otps := [{ id := 7, email := "bob@example.com",
               otp := get_password_hash "ABC123" }] }

/-- A non-revoked ledger row whose subject `ghost` matches no user. -/
def ghostTok : Token :=
  { jti := "jX", user_id := 9, access_jti := none, expires_at := 100,
    revoked := false, revoked_at := none, reason := none,
    type := TokenType.ACCESS }

/-- Store containing only the orphaned `ghostTok` row. -/
def storeG : Store := { users := [], tokens := [ghostTok], otps := [] }

/-- The bearer string of `ghostTok`. -/
def ghostCred : Cred := Cred.signed "ghost" "jX" 100 true

/-- An inactive user with a verified email. -/
def carol : User :=
  { id := 3, username := "carol", email := "carol@example.com",
    hashed_password := get_password_hash "Secret1!", is_active := false,
    is_email_verified := true, is_superuser := false }

/-- A non-revoked ledger row owned by `carol`. -/
def tokC : Token :=
  { jti := "jC", user_id := 3, access_jti := none, expires_at := 100,
    revoked := false, revoked_at := none, reason := none,
    type := TokenType.ACCESS }

/-- Store with the inactive `carol` and her live token. -/
def storeC : Store := { users := [carol], tokens := [tokC], otps := [] }

/-- The bearer string of `tokC`. -/
def credC : Cred := Cred.signed "carol" "jC" 100 true

/-! ### General list lemmas used by the proofs -/

theorem find_app_of_none {α : Type} (p : α → Bool) (l₁ l₂ : List α)
    (h : l₁.find? p = none) : (l₁ ++ l₂).find? p = l₂.find? p := by
  induction l₁ with
  | nil => rfl
  | cons a l ih =>
    by_cases hp : p a
    · rw [List.find?_cons_of_pos _ hp] at h; exact absurd h (by simp)
    · rw [List.find?_cons_of_neg _ hp] at h
      rw [List.cons_append, List.find?_cons_of_neg _ hp]
      exact ih h

theorem find_app_of_some {α : Type} (p : α → Bool) (l₁ l₂ : List α) (a : α)
    (h : l₁.find? p = some a) : (l₁ ++ l₂).find? p = some a := by
  induction l₁ with
  | nil => simp at h
  | cons b l ih =>
    by_cases hp : p b
    · rw [List.find?_cons_of_pos _ hp] at h
      rw [List.cons_append, List.find?_cons_of_pos _ hp]; exact h
    · rw [List.find?_cons_of_neg _ hp] at h
      rw [List.cons_append, List.find?_cons_of_neg _ hp]
      exact ih h

theorem find_over_map {α : Type} (g : α → α) (p : α → Bool)
    (h : ∀ x, p (g x) = p x) (l : List α) :
    (l.map g).find? p = (l.find? p).map g := by
  induction l with
  | nil => rfl
  | cons a l ih =>
    by_cases hp : p a
    · rw [List.map_cons, List.find?_cons_of_pos _ (by rw [h a]; exact hp),
        List.find?_cons_of_pos _ hp, Option.map_some']
    · rw [List.map_cons, List.find?_cons_of_neg _ (by rw [h a]; simpa using hp),
        List.find?_cons_of_neg _ hp]
      exact ih

/-! ### Claim theorems -/

/-- **C3.** The password policy check used by registration, password reset and
change-password has no minimum-length rule: the 7-character password
`"Aa1!aaa"` passes the validator, and `"short1!"` is rejected for its missing
uppercase letter, not for being too short — contradicting the validators' own
`Field` description ("must be at least 8 characters long"). -/
theorem C3_no_min_length_rule :
    password_validator "Aa1!aaa" = Except.ok "Aa1!aaa" ∧
    "Aa1!aaa".length = 7 ∧
    password_validator "short1!" =
      Except.error "Password must contain at least one uppercase letter" := by
  refine ⟨by decide, by decide, by decide⟩

/-- **C4.** When a decodable token with a non-revoked ledger row names a
subject with no matching user, `get_current_user` returns the 401 error but
leaves the store completely unchanged — the presented token's row is still
non-revoked afterwards, because the source calls `revoke_token` without
`await` (`app/dependencies.py:159`) and the coroutine never runs. -/
theorem C4_owner_missing_row_not_revoked :
    (get_current_user ghostCred 0 storeG).fst =
      Except.error ⟨401, "User not found, token invalid"⟩ ∧
    (get_current_user ghostCred 0 storeG).snd = storeG ∧
    (get_token_by_jti (get_current_user ghostCred 0 storeG).snd "jX").map
      Token.revoked = some false := by
  refine ⟨by decide, by decide, by decide⟩

/-- **C9.** `issueSession` does not distinguish its two failure causes: a
login with an identifier matching no user and a login with an existing user
but a non-verifying password return the identical 400 "Incorrect email or
password" response. -/
theorem C9_login_failures_indistinguishable
    (s₁ s₂ : Store) (id₁ pw₁ id₂ pw₂ aj₁ rj₁ aj₂ rj₂ : String) (n₁ n₂ : Nat)
    (u : User)
    (h1 : get_user_by_email s₁ id₁ = none)
    (h2 : get_user_by_email s₂ id₂ = some u)
    (h3 : verify_password pw₂ u.hashed_password = false) :
    (login_for_access_token s₁ id₁ pw₁ aj₁ rj₁ n₁).fst =
      (login_for_access_token s₂ id₂ pw₂ aj₂ rj₂ n₂).fst ∧
    (login_for_access_token s₁ id₁ pw₁ aj₁ rj₁ n₁).fst =
      Except.error ⟨400, "Incorrect email or password"⟩ := by
  constructor <;> simp [login_for_access_token, authenticate, h1, h2, h3]

/-- Witness for C9 at a concrete pair of stores: unknown identifier on the
left, `alice` with a wrong password on the right. -/
theorem C9_witness :
    get_user_by_email store0 "nobody@example.com" = none ∧
    get_user_by_email store0 "alice@example.com" = some alice ∧
    verify_password "WrongPw1!" alice.hashed_password = false ∧
    ((login_for_access_token store0 "nobody@example.com" "x" "a1" "r1" 0).fst =
        (login_for_access_token store0 "alice@example.com" "WrongPw1!" "a2" "r2" 5).fst ∧
     (login_for_access_token store0 "nobody@example.com" "x" "a1" "r1" 0).fst =
        Except.error ⟨400, "Incorrect email or password"⟩) :=
  ⟨by decide, by decide, by decide,
    C9_login_failures_indistinguishable store0 store0 "nobody@example.com" "x"
      "alice@example.com" "WrongPw1!" "a1" "r1" "a2" "r2" 0 5 alice (by decide)
      (by decide) (by decide)⟩

/-- **C2 counterexample.** With `bob` unverified and the stored OTP hash of
`ABC123`, the first confirmation succeeds, but the immediate replay fails with
400 "Email already verified" — not with the 404 "OTP not found" the claim
requires (the verified-email check precedes the OTP lookup). -/
theorem C2_counterexample :
    (verify_email "bob@example.com" "abc123" storeB).fst =
      Except.ok { bob with is_email_verified := true } ∧
    (verify_email "bob@example.com" "abc123"
        (verify_email "bob@example.com" "abc123" storeB).snd).fst =
      Except.error ⟨400, "Email already verified"⟩ ∧
    ((Except.error ⟨400, "Email already verified"⟩ : Except Http User) ≠
      Except.error ⟨404, "OTP not found"⟩) := by
  refine ⟨by decide, by decide, by decide⟩

/-- When the user of `email` is already verified, `verify_email` short-circuits
with 400 "Email already verified" before ever looking at the OTP table. -/
theorem verify_email_already_verified (s : Store) (e code : String) (w : User)
    (hw : get_user_by_email s e = some w) (hv : w.is_email_verified = true) :
    (verify_email e code s).fst = Except.error ⟨400, "Email already verified"⟩ := by
  unfold verify_email
  rw [hw]
  simp [hv]

/-- **C2 (amended).** For every user with an unverified email and a stored OTP
row whose hash matches the (upper-cased) code, `verify_email` succeeds exactly
once — marking the email verified and deleting the OTP row — and the
immediately repeated call fails with 400 "Email already verified" (the
verified-email check precedes the OTP lookup), not with "Invalid OTP" and not
with the 404 "OTP not found". -/
theorem C2_replay_fails_already_verified
    (s : Store) (e code : String) (u : User) (o : Otp)
    (hu : get_user_by_email s e = some u)
    (hv : u.is_email_verified = false)
    (ho : get_otp_by_email s e = some o)
    (hmatch : o.otp = get_password_hash (upper code))
    (huniq : ∀ o' ∈ s.otps, o'.email = e → o'.id = o.id) :
    (verify_email e code s).fst = Except.ok { u with is_email_verified := true } ∧
    get_user_by_email (verify_email e code s).snd e =
      some { u with is_email_verified := true } ∧
    get_otp_by_email (verify_email e code s).snd e = none ∧
    (verify_email e code (verify_email e code s).snd).fst =
      Except.error ⟨400, "Email already verified"⟩ := by
  have hver : verify_password (upper code) o.otp = true := by
    simp [verify_password, hmatch]
  have hrun : verify_email e code s =
      (Except.ok { u with is_email_verified := true },
       { users := s.users.map (fun v =>
           if v.id == u.id then { v with is_email_verified := true } else v),
         tokens := s.tokens,
         otps := s.otps.filter (fun x => x.id != o.id) }) := by
    simp [verify_email, hu, hv, ho, hver, delete_otp]
  have husers : get_user_by_email (verify_email e code s).snd e =
      some { u with is_email_verified := true } := by
    rw [hrun]
    unfold get_user_by_email at hu ⊢
    simp only
    rw [find_over_map _ _ (fun v => by by_cases hid : v.id == u.id <;> simp [hid]),
      hu, Option.map_some']
    simp
  refine ⟨by rw [hrun], husers, ?_,
    verify_email_already_verified _ _ code _ husers (by simp)⟩
  rw [hrun]
  unfold get_otp_by_email
  simp only
  rw [List.find?_eq_none]
  intro x hx
  have hmem := (List.mem_filter.mp hx).1
  have hid := (List.mem_filter.mp hx).2
  intro hpe
  have : x.id = o.id := huniq x hmem (by simpa using hpe)
  simp [this] at hid

/-- Witness for C2 (amended) on the concrete `storeB`. -/
theorem C2_witness :
    (get_user_by_email storeB "bob@example.com" = some bob ∧
      bob.is_email_verified = false ∧
      get_otp_by_email storeB "bob@example.com" =
        some ⟨7, "bob@example.com", get_password_hash "ABC123"⟩ ∧
      get_password_hash "ABC123" = get_password_hash (upper "abc123")) ∧
    ((verify_email "bob@example.com" "abc123" storeB).fst =
        Except.ok { bob with is_email_verified := true } ∧
      (verify_email "bob@example.com" "abc123"
          (verify_email "bob@example.com" "abc123" storeB).snd).fst =
        Except.error ⟨400, "Email already verified"⟩) := by
  have h := C2_replay_fails_already_verified storeB "bob@example.com" "abc123"
    bob ⟨7, "bob@example.com", get_password_hash "ABC123"⟩ (by decide) (by decide)
    (by decide) (by decide) (by decide)
  exact ⟨⟨by decide, by decide, by decide, by decide⟩, h.1, h.2.2.2⟩

/-- **C7 counterexample.** For the inactive, email-verified `carol` presenting
her valid non-revoked token, the gate fails with 400 "Inactive user" — not
with the single outward-facing 401 Unauthorized the claim requires. -/
theorem C7_counterexample :
    (get_current_active_user credC 0 storeC).fst =
      Except.error ⟨400, "Inactive user"⟩ ∧
    ∀ d : String, (get_current_active_user credC 0 storeC).fst ≠
      Except.error ⟨401, d⟩ := by
  have h : (get_current_active_user credC 0 storeC).fst =
      Except.error ⟨400, "Inactive user"⟩ := by decide
  refine ⟨h, ?_⟩
  intro d hcon
  rw [h] at hcon
  simp [Http.mk.injEq] at hcon

/-- **C7 (amended).** A decodable token with a non-revoked ledger row whose
owner exists but is inactive fails the active-user gate, but not uniformly
with 401: when the owner's email is verified the failure is the distinct
400 "Inactive user" raised by `get_current_active_user`; only when the email
is unverified does the earlier `get_current_user` check fail with 401. -/
theorem C7_inactive_gate
    (s : Store) (un jti : String) (exp now : Nat) (t : Token) (u : User)
    (hexp : now < exp)
    (ht : get_token_by_jti s jti = some t) (hrev : t.revoked = false)
    (hu : get_user_by_username s un = some u) (hinact : u.is_active = false) :
    get_current_active_user (Cred.signed un jti exp true) now s =
      (if u.is_email_verified = true then Except.error ⟨400, "Inactive user"⟩
       else Except.error ⟨401, "Email not verified"⟩, s) := by
  have hdec : verify_payload (Cred.signed un jti exp true) now =
      Except.ok (un, jti) := by
    simp [verify_payload, Nat.not_le.mpr hexp]
  by_cases hver : u.is_email_verified = true
  · simp [get_current_active_user, get_current_user, hdec, ht, hrev, hu, hver,
      hinact]
  · simp [get_current_active_user, get_current_user, hdec, ht, hrev, hu, hver]

/-- Witness for C7 (amended) at `carol`. -/
theorem C7_witness :
    (0 < 100 ∧ get_token_by_jti storeC "jC" = some tokC ∧
      tokC.revoked = false ∧
      get_user_by_username storeC "carol" = some carol ∧
      carol.is_active = false) ∧
    get_current_active_user (Cred.signed "carol" "jC" 100 true) 0 storeC =
      (if carol.is_email_verified = true then Except.error ⟨400, "Inactive user"⟩
       else Except.error ⟨401, "Email not verified"⟩, storeC) :=
  ⟨⟨by decide, by decide, by decide, by decide, by decide⟩,
    C7_inactive_gate storeC "carol" "jC" 100 0 tokC carol (by decide) (by decide)
      (by decide) (by decide) (by decide)⟩

/-- **C8.** For an existing user, `revoke_active_tokens` flips exactly the
previously non-revoked tokens owned by that user to revoked (with the shared
reason and timestamp) and changes nothing else: users and OTPs are untouched,
the token list keeps its length, every token of another owner and every
already-revoked token (its `revoked_at` and `reason` included) is identical
before and after. -/
theorem C8_revoke_all_frame
    (s : Store) (uid : Nat) (r : String) (now : Nat) (u : User)
    (h : get_user_by_id s uid = some u) :
    ∃ s', revoke_active_tokens s uid r now = Except.ok s' ∧
      s'.users = s.users ∧ s'.otps = s.otps ∧
      s'.tokens.length = s.tokens.length ∧
      ∀ (i : Nat) (t : Token), s.tokens[i]? = some t →
        ((t.user_id = uid ∧ t.revoked = false →
            s'.tokens[i]? =
              some { t with revoked := true, reason := some r,
                            revoked_at := some now }) ∧
         (¬(t.user_id = uid ∧ t.revoked = false) →
            s'.tokens[i]? = some t)) := by
  unfold revoke_active_tokens
  rw [h]
  refine ⟨_, rfl, rfl, rfl, by simp, ?_⟩
  intro i t hti
  constructor
  · rintro ⟨h1, h2⟩
    simp only [List.getElem?_map, hti, Option.map_some']
    simp [h1, h2]
  · intro hns
    simp only [List.getElem?_map, hti, Option.map_some']
    have hcond : (t.user_id == uid && t.revoked == false) = false := by
      by_cases hc1 : t.user_id = uid
      · have hc2 : t.revoked = true := by
          cases hcr : t.revoked with
          | false => exact absurd ⟨hc1, hcr⟩ hns
          | true => rfl
        simp [hc1, hc2]
      · simp [hc1]
    simp [hcond]
    intro h1 h2
    exact absurd ⟨h1, h2⟩ hns

/-- A second user, owner of a token that logout-everywhere must not touch. -/
def dave : User :=
  { id := 4, username := "dave", email := "dave@example.com",
    hashed_password := get_password_hash "Secret1!", is_active := true,
    is_email_verified := true, is_superuser := false }

/-- An already-revoked token of `alice`, whose reason/timestamp must survive. -/
def tokRev : Token :=
  { jti := "jRev", user_id := 1, access_jti := none, expires_at := 50,
    revoked := true, revoked_at := some 5, reason := some "User logged out",
    type := TokenType.ACCESS }

/-- A live token of `dave`. -/
def tokD : Token :=
  { jti := "jD", user_id := 4, access_jti := none, expires_at := 100,
    revoked := false, revoked_at := none, reason := none,
    type := TokenType.ACCESS }

/-- Store mixing live and revoked tokens of two owners. -/
def storeM : Store :=
  { users := [alice, dave], tokens := [tokA1, tokRev, tokD], otps := [] }

/-- Witness for C8 on `storeM`. -/
theorem C8_witness :
    get_user_by_id storeM 1 = some alice ∧
    (∃ s', revoke_active_tokens storeM 1 "logout everywhere" 50 = Except.ok s' ∧
      s'.users = storeM.users ∧ s'.otps = storeM.otps ∧
      s'.tokens.length = storeM.tokens.length ∧
      ∀ (i : Nat) (t : Token), storeM.tokens[i]? = some t →
        ((t.user_id = 1 ∧ t.revoked = false →
            s'.tokens[i]? =
              some { t with revoked := true, reason := some "logout everywhere",
                            revoked_at := some 50 }) ∧
         (¬(t.user_id = 1 ∧ t.revoked = false) →
            s'.tokens[i]? = some t))) :=
  ⟨by decide, C8_revoke_all_frame storeM 1 "logout everywhere" 50 alice (by decide)⟩

/-- The authorization gate succeeds for any decodable token whose ledger row
is non-revoked and whose subject is an active user with a verified email —
nothing in `get_current_user` / `get_current_active_user` reads the row's
`type` column. -/
theorem gate_ok (s : Store) (un jti : String) (exp now : Nat) (t : Token)
    (u : User) (hexp : now < exp)
    (ht : get_token_by_jti s jti = some t) (hrev : t.revoked = false)
    (hu : get_user_by_username s un = some u)
    (hver : u.is_email_verified = true) (hact : u.is_active = true) :
    get_current_active_user (Cred.signed un jti exp true) now s =
      (Except.ok u, s) := by
  have hdec : verify_payload (Cred.signed un jti exp true) now =
      Except.ok (un, jti) := by
    simp [verify_payload, Nat.not_le.mpr hexp]
  simp [get_current_active_user, get_current_user, hdec, ht, hrev, hu, hver, hact]

/-- **C5.** The per-request principal resolution never inspects the ledger
row's `type` field: a decodable bearer credential whose jti names a
non-revoked REFRESH row and whose owner exists, is active, and has a verified
email passes the protected-operation gate and resolves its owner — exactly the
result any non-revoked ACCESS row of the same subject yields. -/
theorem C5_refresh_token_accepted_by_gate
    (s : Store) (un rjti : String) (exp now : Nat) (t : Token) (u : User)
    (hexp : now < exp)
    (ht : get_token_by_jti s rjti = some t)
    (hrev : t.revoked = false)
    (_htype : t.type = TokenType.REFRESH)
    (hu : get_user_by_username s un = some u)
    (hver : u.is_email_verified = true) (hact : u.is_active = true) :
    get_current_active_user (Cred.signed un rjti exp true) now s =
      (Except.ok u, s) ∧
    ∀ (jti₂ : String) (t₂ : Token), get_token_by_jti s jti₂ = some t₂ →
      t₂.revoked = false → t₂.type = TokenType.ACCESS →
      get_current_active_user (Cred.signed un jti₂ exp true) now s =
        get_current_active_user (Cred.signed un rjti exp true) now s := by
  refine ⟨gate_ok s un rjti exp now t u hexp ht hrev hu hver hact, ?_⟩
  intro jti₂ t₂ ht₂ hrev₂ _
  rw [gate_ok s un jti₂ exp now t₂ u hexp ht₂ hrev₂ hu hver hact,
    gate_ok s un rjti exp now t u hexp ht hrev hu hver hact]

/-- Witness for C5: `alice`'s refresh token `tokR1` passes the gate on
`store0` and resolves the same principal as her access token. -/
theorem C5_witness :
    (0 < 1000 ∧ get_token_by_jti store0 "jR1" = some tokR1 ∧
      tokR1.revoked = false ∧ tokR1.type = TokenType.REFRESH ∧
      get_user_by_username store0 "alice" = some alice ∧
      alice.is_email_verified = true ∧ alice.is_active = true) ∧
    (get_current_active_user (Cred.signed "alice" "jR1" 1000 true) 0 store0 =
        (Except.ok alice, store0) ∧
      ∀ (jti₂ : String) (t₂ : Token), get_token_by_jti store0 jti₂ = some t₂ →
        t₂.revoked = false → t₂.type = TokenType.ACCESS →
        get_current_active_user (Cred.signed "alice" jti₂ 1000 true) 0 store0 =
          get_current_active_user (Cred.signed "alice" "jR1" 1000 true) 0 store0) :=
  ⟨⟨by decide, by decide, by decide, by decide, by decide, by decide, by decide⟩,
    C5_refresh_token_accepted_by_gate store0 "alice" "jR1" 1000 0 tokR1 alice
      (by decide) (by decide) (by decide) (by decide) (by decide) (by decide)
      (by decide)⟩

/-- A row found by `get_token_by_jti` carries the looked-up jti. -/
theorem get_token_jti (s : Store) (j : String) (t : Token)
    (h : get_token_by_jti s j = some t) : t.jti = j := by
  unfold get_token_by_jti at h
  exact eq_of_beq (by simpa using List.find?_some h)

/-- A row found by `get_token_by_jti` is a member of the token table. -/
theorem get_token_mem (s : Store) (j : String) (t : Token)
    (h : get_token_by_jti s j = some t) : t ∈ s.tokens := by
  unfold get_token_by_jti at h
  exact List.mem_of_find?_eq_some h

/-- Test lemma: compute the success path of refresh. -/
theorem refresh_ok_run
    (s : Store) (un rjti aj newJti : String) (exp now : Nat)
    (R A : Token) (u : User)
    (hexp : now < exp)
    (hR : get_token_by_jti s rjti = some R)
    (hRrev : R.revoked = false)
    (hRaj : R.access_jti = some aj)
    (hA : get_token_by_jti s aj = some A)
    (hu : get_user_by_username s un = some u)
    (hfresh : ∀ t ∈ s.tokens, t.jti ≠ newJti) :
    refresh_access_token (Cred.signed un rjti exp true) now newJti s =
      (Except.ok { access_token :=
                     Cred.signed un newJti (now + access_token_expiry_minutes) true,
                   access_token_expires_at := now + access_token_expiry_minutes,
                   refresh_token := none, refresh_token_expires_at := none },
       { users := s.users,
         tokens := ((revoke_token s aj (some "Refresh token used") now).tokens ++
             [({ jti := newJti, user_id := u.id, access_jti := none,
                 expires_at := now + access_token_expiry_minutes, revoked := false,
                 revoked_at := none, reason := none,
                 type := TokenType.ACCESS } : Token)]).map
               (fun t => if t.jti == rjti then { t with access_jti := some newJti }
                else t),
         otps := s.otps }) := by
  have hdec : verify_payload (Cred.signed un rjti exp true) now =
      Except.ok (un, rjti) := by
    simp [verify_payload, Nat.not_le.mpr hexp]
  have hRj : R.jti = rjti := get_token_jti s rjti R hR
  have hAj : A.jti = aj := get_token_jti s aj A hA
  have hany : ((revoke_token s aj (some "Refresh token used") now).tokens.any
      (fun t => t.jti == newJti)) = false := by
    unfold revoke_token
    rw [List.any_eq_false]
    intro x hx
    obtain ⟨t0, ht0, rfl⟩ := List.mem_map.mp hx
    by_cases h : (t0.jti == aj) = true <;> simp [h, hfresh t0 ht0]
  simp only [refresh_access_token, hdec, hR, hRrev, Bool.false_eq_true,
    if_false, hu, hRaj, Option.some_bind, hA, create_token, hAj, hRj]
  rw [insert_token]
  simp only [hany, Bool.false_eq_true, if_false]
  rfl

/-- The relink map of rotation preserves each row's jti. -/
theorem relink_pres_jti (rjti newJti : String) (x : Token) :
    ((fun t : Token => if t.jti == rjti then { t with access_jti := some newJti }
      else t) x).jti = x.jti := by
  by_cases h : (x.jti == rjti) = true <;> simp [h]

/-- The revoke map of rotation preserves each row's jti. -/
theorem revoke_pres_jti (aj : String) (now : Nat) (x : Token) :
    ((fun t : Token => if t.jti == aj then
      { t with revoked := true, revoked_at := some now,
               reason := some "Refresh token used" } else t) x).jti = x.jti := by
  by_cases h : (x.jti == aj) = true <;> simp [h]

/-- Mapping two jti-preserving updates over the token table and appending one
fresh row appends exactly one jti to the table's jti list. -/
theorem map_jti_chain (g1 g2 : Token → Token)
    (h1 : ∀ x, (g1 x).jti = x.jti) (h2 : ∀ x, (g2 x).jti = x.jti)
    (newRow : Token) :
    ∀ l : List Token,
      ((l.map g1 ++ [newRow]).map g2).map Token.jti =
        l.map Token.jti ++ [newRow.jti] := by
  intro l
  induction l with
  | nil => simp [h2]
  | cons a l ih =>
    simp only [List.map_cons, List.cons_append] at ih ⊢
    rw [h2 (g1 a), h1 a, ih]

theorem refresh_ok_spec
    (s : Store) (un rjti aj newJti : String) (exp now : Nat)
    (R A : Token) (u : User)
    (hexp : now < exp)
    (hR : get_token_by_jti s rjti = some R)
    (hRrev : R.revoked = false)
    (hRaj : R.access_jti = some aj)
    (hA : get_token_by_jti s aj = some A)
    (hne : aj ≠ rjti)
    (hu : get_user_by_username s un = some u)
    (hfresh : ∀ t ∈ s.tokens, t.jti ≠ newJti) :
    (refresh_access_token (Cred.signed un rjti exp true) now newJti s).fst =
      Except.ok { access_token :=
                    Cred.signed un newJti (now + access_token_expiry_minutes) true,
                  access_token_expires_at := now + access_token_expiry_minutes,
                  refresh_token := none, refresh_token_expires_at := none } ∧
    (refresh_access_token (Cred.signed un rjti exp true) now newJti s).snd.users
      = s.users ∧
    (refresh_access_token (Cred.signed un rjti exp true) now newJti s).snd.otps
      = s.otps ∧
    get_token_by_jti
        (refresh_access_token (Cred.signed un rjti exp true) now newJti s).snd aj =
      some { A with revoked := true, revoked_at := some now,
                    reason := some "Refresh token used" } ∧
    get_token_by_jti
        (refresh_access_token (Cred.signed un rjti exp true) now newJti s).snd rjti =
      some { R with access_jti := some newJti } ∧
    get_token_by_jti
        (refresh_access_token (Cred.signed un rjti exp true) now newJti s).snd
        newJti =
      some { jti := newJti, user_id := u.id, access_jti := none,
             expires_at := now + access_token_expiry_minutes, revoked := false,
             revoked_at := none, reason := none, type := TokenType.ACCESS } ∧
    (refresh_access_token (Cred.signed un rjti exp true) now newJti
        s).snd.tokens.map Token.jti = s.tokens.map Token.jti ++ [newJti] := by
  have hrun := refresh_ok_run s un rjti aj newJti exp now R A u hexp hR hRrev
    hRaj hA hu hfresh
  have hRj : R.jti = rjti := get_token_jti s rjti R hR
  have hAj : A.jti = aj := get_token_jti s aj A hA
  have hAmem : A ∈ s.tokens := get_token_mem s aj A hA
  have hRmem : R ∈ s.tokens := get_token_mem s rjti R hR
  -- find? facts on the first-commit list
  have hfind1_aj : (revoke_token s aj (some "Refresh token used") now).tokens.find?
      (fun t => t.jti == aj) =
      some { A with revoked := true, revoked_at := some now,
                    reason := some "Refresh token used" } := by
    unfold revoke_token
    simp only
    rw [find_over_map _ _ (fun x => by
      have := revoke_pres_jti aj now x
      simp only at this ⊢
      rw [this])]
    have : s.tokens.find? (fun t => t.jti == aj) = some A := hA
    rw [this, Option.map_some']
    simp [hAj]
  have hfind1_rjti : (revoke_token s aj (some "Refresh token used") now).tokens.find?
      (fun t => t.jti == rjti) = some R := by
    unfold revoke_token
    simp only
    rw [find_over_map _ _ (fun x => by
      have := revoke_pres_jti aj now x
      simp only at this ⊢
      rw [this])]
    have : s.tokens.find? (fun t => t.jti == rjti) = some R := hR
    rw [this, Option.map_some']
    have : (R.jti == aj) = false := by
      rw [hRj]; exact beq_false_of_ne (Ne.symm hne)
    simp [this]
  have hfind1_new : (revoke_token s aj (some "Refresh token used") now).tokens.find?
      (fun t => t.jti == newJti) = none := by
    unfold revoke_token
    simp only
    rw [find_over_map _ _ (fun x => by
      have := revoke_pres_jti aj now x
      simp only at this ⊢
      rw [this])]
    have : s.tokens.find? (fun t => t.jti == newJti) = none := by
      rw [List.find?_eq_none]
      intro x hx
      simp [hfresh x hx]
    rw [this, Option.map_none']
  rw [hrun]
  refine ⟨rfl, rfl, rfl, ?_, ?_, ?_, ?_⟩
  · unfold get_token_by_jti
    simp only
    rw [find_over_map _ _ (fun x => by
      have := relink_pres_jti rjti newJti x
      simp only at this ⊢
      rw [this])]
    rw [find_app_of_some _ _ _ _ hfind1_aj, Option.map_some']
    simp [hAj, beq_false_of_ne hne]
  · unfold get_token_by_jti
    simp only
    rw [find_over_map _ _ (fun x => by
      have := relink_pres_jti rjti newJti x
      simp only at this ⊢
      rw [this])]
    rw [find_app_of_some _ _ _ _ hfind1_rjti, Option.map_some']
    simp [hRj]
  · unfold get_token_by_jti
    simp only
    rw [find_over_map _ _ (fun x => by
      have := relink_pres_jti rjti newJti x
      simp only at this ⊢
      rw [this])]
    rw [find_app_of_none _ _ _ hfind1_new]
    have hnr2 : ¬ newJti = rjti := by
      intro hcon
      exact hfresh R hRmem (by rw [hRj, hcon])
    simp [hnr2]
  · exact map_jti_chain _ _ (fun x => revoke_pres_jti aj now x)
      (fun x => relink_pres_jti rjti newJti x) _ s.tokens

/-- **C1 counterexample.** On `store0` (alice logged in, access row `jA1`,
refresh row `jR1` pointing at it), a rotation whose freshly drawn jti collides
with the existing `jA1` returns a 400 error result with exactly one of the
three writes persisted: the old access row is revoked, the refresh row still
points at it, and no replacement row exists (the table still has 2 rows). -/
theorem C1_counterexample :
    (refresh_access_token credR1 10 "jA1" store0).fst =
      Except.error ⟨400, "IntegrityError: UNIQUE constraint failed: tokens.jti"⟩ ∧
    (refresh_access_token credR1 10 "jA1" store0).snd ≠ store0 ∧
    (get_token_by_jti (refresh_access_token credR1 10 "jA1" store0).snd "jA1").map
      Token.revoked = some true ∧
    (get_token_by_jti (refresh_access_token credR1 10 "jA1" store0).snd "jR1").map
      Token.access_jti = some (some "jA1") ∧
    ((refresh_access_token credR1 10 "jA1" store0).snd).tokens.length = 2 := by
  refine ⟨by decide, by decide, by decide, by decide, by decide⟩

/-- **C1 (amended).** Rotation's three writes are three separate commits, not
one atomic unit.  For a valid non-revoked refresh token: when the freshly
drawn jti is unused, the call succeeds and all three writes are applied
(old access row revoked, new ACCESS row inserted, refresh row relinked); but
when the drawn jti collides with an existing row, the insert's
IntegrityError is returned as a 400 error result with only the first commit
(the revoke) persisted — the refresh row then points at a revoked row with no
replacement. -/
theorem C1_rotation_three_separate_commits
    (s : Store) (un rjti aj newJti : String) (exp now : Nat)
    (R A : Token) (u : User)
    (hexp : now < exp)
    (hR : get_token_by_jti s rjti = some R)
    (hRrev : R.revoked = false)
    (hRaj : R.access_jti = some aj)
    (hA : get_token_by_jti s aj = some A)
    (hne : aj ≠ rjti)
    (hu : get_user_by_username s un = some u) :
    ((∀ t ∈ s.tokens, t.jti ≠ newJti) →
      (refresh_access_token (Cred.signed un rjti exp true) now newJti s).fst =
        Except.ok { access_token :=
                      Cred.signed un newJti (now + access_token_expiry_minutes) true,
                    access_token_expires_at := now + access_token_expiry_minutes,
                    refresh_token := none, refresh_token_expires_at := none } ∧
      get_token_by_jti
          (refresh_access_token (Cred.signed un rjti exp true) now newJti s).snd aj =
        some { A with revoked := true, revoked_at := some now,
                      reason := some "Refresh token used" } ∧
      get_token_by_jti
          (refresh_access_token (Cred.signed un rjti exp true) now newJti s).snd
          rjti = some { R with access_jti := some newJti } ∧
      get_token_by_jti
          (refresh_access_token (Cred.signed un rjti exp true) now newJti s).snd
          newJti =
        some { jti := newJti, user_id := u.id, access_jti := none,
               expires_at := now + access_token_expiry_minutes, revoked := false,
               revoked_at := none, reason := none, type := TokenType.ACCESS }) ∧
    ((∃ t ∈ s.tokens, t.jti = newJti) →
      (refresh_access_token (Cred.signed un rjti exp true) now newJti s).fst =
        Except.error
          ⟨400, "IntegrityError: UNIQUE constraint failed: tokens.jti"⟩ ∧
      (refresh_access_token (Cred.signed un rjti exp true) now newJti s).snd =
        revoke_token s aj (some "Refresh token used") now) := by
  constructor
  · intro hfresh
    have h := refresh_ok_spec s un rjti aj newJti exp now R A u hexp hR hRrev
      hRaj hA hne hu hfresh
    exact ⟨h.1, h.2.2.2.1, h.2.2.2.2.1, h.2.2.2.2.2.1⟩
  · rintro ⟨t0, ht0, ht0j⟩
    have hdec : verify_payload (Cred.signed un rjti exp true) now =
        Except.ok (un, rjti) := by
      simp [verify_payload, Nat.not_le.mpr hexp]
    have hAj : A.jti = aj := get_token_jti s aj A hA
    have hany : ((revoke_token s aj (some "Refresh token used") now).tokens.any
        (fun t => t.jti == newJti)) = true := by
      unfold revoke_token
      rw [List.any_eq_true]
      refine ⟨_, List.mem_map_of_mem _ ht0, ?_⟩
      by_cases h : (t0.jti == aj) = true
      · rw [if_pos h]
        simpa using ht0j
      · rw [if_neg h]
        simpa using ht0j
    constructor
    · simp only [refresh_access_token, hdec, hR, hRrev, Bool.false_eq_true,
        if_false, hu, hRaj, Option.some_bind, hA, create_token, hAj]
      rw [insert_token]
      simp [hany]
    · simp only [refresh_access_token, hdec, hR, hRrev, Bool.false_eq_true,
        if_false, hu, hRaj, Option.some_bind, hA, create_token, hAj]
      rw [insert_token]
      simp [hany]

/-- Witness for C1 (amended) on `store0`: the fresh jti `jA2` takes the
success branch; the colliding jti is covered by `C1_counterexample`. -/
theorem C1_witness :
    (0 + 10 < 1000 ∧ get_token_by_jti store0 "jR1" = some tokR1 ∧
      tokR1.revoked = false ∧ tokR1.access_jti = some "jA1" ∧
      get_token_by_jti store0 "jA1" = some tokA1 ∧ "jA1" ≠ "jR1" ∧
      get_user_by_username store0 "alice" = some alice ∧
      (∀ t ∈ store0.tokens, t.jti ≠ "jA2")) ∧
    ((refresh_access_token (Cred.signed "alice" "jR1" 1000 true) 10 "jA2"
          store0).fst =
        Except.ok { access_token :=
                      Cred.signed "alice" "jA2" (10 + access_token_expiry_minutes) true,
                    access_token_expires_at := 10 + access_token_expiry_minutes,
                    refresh_token := none, refresh_token_expires_at := none } ∧
      get_token_by_jti (refresh_access_token (Cred.signed "alice" "jR1" 1000 true)
          10 "jA2" store0).snd "jA1" =
        some { tokA1 with revoked := true, revoked_at := some 10,
                          reason := some "Refresh token used" } ∧
      get_token_by_jti (refresh_access_token (Cred.signed "alice" "jR1" 1000 true)
          10 "jA2" store0).snd "jR1" =
        some { tokR1 with access_jti := some "jA2" } ∧
      get_token_by_jti (refresh_access_token (Cred.signed "alice" "jR1" 1000 true)
          10 "jA2" store0).snd "jA2" =
        some { jti := "jA2", user_id := alice.id, access_jti := none,
               expires_at := 10 + access_token_expiry_minutes, revoked := false,
               revoked_at := none, reason := none, type := TokenType.ACCESS }) :=
  ⟨⟨by decide, by decide, by decide, by decide, by decide, by decide, by decide,
      by decide⟩,
    (C1_rotation_three_separate_commits store0 "alice" "jR1" "jA1" "jA2" 1000 10
      tokR1 tokA1 alice (by decide) (by decide) (by decide) (by decide)
      (by decide) (by decide) (by decide)).1 (by decide)⟩

/-- **C6.** `refresh_access_token` never revokes or replaces the refresh row
itself: a successful refresh leaves the refresh row non-revoked under its
original jti (only its `access_jti` link moves to the new access token), and a
second refresh with the same refresh token on the resulting state succeeds
again — minting a third access token and revoking the second.  Reuse of the
refresh token after rotation is permitted. -/
theorem C6_refresh_reuse_permitted
    (s : Store) (un rjti aj nj1 nj2 : String) (exp now now2 : Nat)
    (R A : Token) (u : User)
    (hexp : now < exp) (hexp2 : now2 < exp)
    (hR : get_token_by_jti s rjti = some R)
    (hRrev : R.revoked = false)
    (hRaj : R.access_jti = some aj)
    (hA : get_token_by_jti s aj = some A)
    (hne : aj ≠ rjti)
    (hu : get_user_by_username s un = some u)
    (hf1 : ∀ t ∈ s.tokens, t.jti ≠ nj1)
    (hf2 : ∀ t ∈ s.tokens, t.jti ≠ nj2)
    (hne12 : nj2 ≠ nj1) :
    (refresh_access_token (Cred.signed un rjti exp true) now nj1 s).fst =
      Except.ok { access_token :=
                    Cred.signed un nj1 (now + access_token_expiry_minutes) true,
                  access_token_expires_at := now + access_token_expiry_minutes,
                  refresh_token := none, refresh_token_expires_at := none } ∧
    get_token_by_jti
        (refresh_access_token (Cred.signed un rjti exp true) now nj1 s).snd rjti =
      some { R with access_jti := some nj1 } ∧
    ({ R with access_jti := some nj1 } : Token).revoked = false ∧
    (refresh_access_token (Cred.signed un rjti exp true) now2 nj2
        (refresh_access_token (Cred.signed un rjti exp true) now nj1 s).snd).fst =
      Except.ok { access_token :=
                    Cred.signed un nj2 (now2 + access_token_expiry_minutes) true,
                  access_token_expires_at := now2 + access_token_expiry_minutes,
                  refresh_token := none, refresh_token_expires_at := none } ∧
    get_token_by_jti
        (refresh_access_token (Cred.signed un rjti exp true) now2 nj2
          (refresh_access_token (Cred.signed un rjti exp true) now nj1 s).snd).snd
        rjti = some { R with access_jti := some nj2 } ∧
    (get_token_by_jti
        (refresh_access_token (Cred.signed un rjti exp true) now2 nj2
          (refresh_access_token (Cred.signed un rjti exp true) now nj1 s).snd).snd
        nj1).map Token.revoked = some true ∧
    (get_token_by_jti
        (refresh_access_token (Cred.signed un rjti exp true) now2 nj2
          (refresh_access_token (Cred.signed un rjti exp true) now nj1 s).snd).snd
        nj2).map Token.revoked = some false := by
  have h1 := refresh_ok_spec s un rjti aj nj1 exp now R A u hexp hR hRrev
    hRaj hA hne hu hf1
  have hRj : R.jti = rjti := get_token_jti s rjti R hR
  have hRmem : R ∈ s.tokens := get_token_mem s rjti R hR
  have hne' : nj1 ≠ rjti := by
    intro hcon
    exact hf1 R hRmem (by rw [hRj, hcon])
  have hu' : get_user_by_username
      (refresh_access_token (Cred.signed un rjti exp true) now nj1 s).snd un =
      some u := by
    unfold get_user_by_username at hu ⊢
    rw [h1.2.1]
    exact hu
  have hfresh' : ∀ t ∈ (refresh_access_token (Cred.signed un rjti exp true) now
      nj1 s).snd.tokens, t.jti ≠ nj2 := by
    intro t ht
    have hmem : t.jti ∈ (refresh_access_token (Cred.signed un rjti exp true) now
        nj1 s).snd.tokens.map Token.jti := List.mem_map_of_mem Token.jti ht
    rw [h1.2.2.2.2.2.2] at hmem
    rcases List.mem_append.mp hmem with hin | hin
    · obtain ⟨t0, ht0, ht0e⟩ := List.mem_map.mp hin
      rw [← ht0e]
      exact hf2 t0 ht0
    · have : t.jti = nj1 := by simpa using hin
      rw [this]
      exact Ne.symm hne12
  have h2 := refresh_ok_spec
    (refresh_access_token (Cred.signed un rjti exp true) now nj1 s).snd
    un rjti nj1 nj2 exp now2 { R with access_jti := some nj1 }
    { jti := nj1, user_id := u.id, access_jti := none,
      expires_at := now + access_token_expiry_minutes, revoked := false,
      revoked_at := none, reason := none, type := TokenType.ACCESS }
    u hexp2 h1.2.2.2.2.1 hRrev rfl h1.2.2.2.2.2.1 hne' hu' hfresh'
  refine ⟨h1.1, h1.2.2.2.2.1, hRrev, h2.1, ?_, ?_, ?_⟩
  · exact h2.2.2.2.2.1
  · rw [h2.2.2.2.1]
    simp
  · rw [h2.2.2.2.2.2.1]
    simp

/-- Witness for C6: two consecutive refreshes of `tokR1` on `store0`. -/
theorem C6_witness :
    (10 < 1000 ∧ 20 < 1000 ∧ get_token_by_jti store0 "jR1" = some tokR1 ∧
      tokR1.revoked = false ∧ tokR1.access_jti = some "jA1" ∧
      get_token_by_jti store0 "jA1" = some tokA1 ∧ "jA1" ≠ "jR1" ∧
      get_user_by_username store0 "alice" = some alice ∧
      (∀ t ∈ store0.tokens, t.jti ≠ "jA2") ∧
      (∀ t ∈ store0.tokens, t.jti ≠ "jA3") ∧ "jA3" ≠ "jA2") ∧
    ((refresh_access_token (Cred.signed "alice" "jR1" 1000 true) 10 "jA2"
          store0).fst =
        Except.ok { access_token :=
                      Cred.signed "alice" "jA2" (10 + access_token_expiry_minutes) true,
                    access_token_expires_at := 10 + access_token_expiry_minutes,
                    refresh_token := none, refresh_token_expires_at := none } ∧
      get_token_by_jti (refresh_access_token (Cred.signed "alice" "jR1" 1000 true)
          10 "jA2" store0).snd "jR1" = some { tokR1 with access_jti := some "jA2" } ∧
      ({ tokR1 with access_jti := some "jA2" } : Token).revoked = false ∧
      (refresh_access_token (Cred.signed "alice" "jR1" 1000 true) 20 "jA3"
          (refresh_access_token (Cred.signed "alice" "jR1" 1000 true) 10 "jA2"
            store0).snd).fst =
        Except.ok { access_token :=
                      Cred.signed "alice" "jA3" (20 + access_token_expiry_minutes) true,
                    access_token_expires_at := 20 + access_token_expiry_minutes,
                    refresh_token := none, refresh_token_expires_at := none } ∧
      get_token_by_jti (refresh_access_token (Cred.signed "alice" "jR1" 1000 true)
          20 "jA3" (refresh_access_token (Cred.signed "alice" "jR1" 1000 true)
            10 "jA2" store0).snd).snd "jR1" =
        some { tokR1 with access_jti := some "jA3" } ∧
      (get_token_by_jti (refresh_access_token (Cred.signed "alice" "jR1" 1000 true)
          20 "jA3" (refresh_access_token (Cred.signed "alice" "jR1" 1000 true)
            10 "jA2" store0).snd).snd "jA2").map Token.revoked = some true ∧
      (get_token_by_jti (refresh_access_token (Cred.signed "alice" "jR1" 1000 true)
          20 "jA3" (refresh_access_token (Cred.signed "alice" "jR1" 1000 true)
            10 "jA2" store0).snd).snd "jA3").map Token.revoked = some false) :=
  ⟨⟨by decide, by decide, by decide, by decide, by decide, by decide, by decide,
      by decide, by decide, by decide, by decide⟩,
    C6_refresh_reuse_permitted store0 "alice" "jR1" "jA1" "jA2" "jA3" 1000 10 20
      tokR1 tokA1 alice (by decide) (by decide) (by decide) (by decide)
      (by decide) (by decide) (by decide) (by decide) (by decide) (by decide)
      (by decide)⟩

/-- Revocation monotonicity from `s` to `s'`: every token revoked in `s` whose
jti still names a row in `s'` is revoked there too (deletion is allowed). -/
def RevokedMono (s s' : Store) : Prop :=
  ∀ t ∈ s.tokens, t.revoked = true →
    ∀ t' ∈ s'.tokens, t'.jti = t.jti → t'.revoked = true

theorem mono_of_sub (s s' : Store) (hnd : (s.tokens.map Token.jti).Nodup)
    (h : ∀ x ∈ s'.tokens, x ∈ s.tokens) : RevokedMono s s' := by
  intro t ht hr t' ht' hj
  have heq := List.inj_on_of_nodup_map hnd (h t' ht') ht hj
  rw [heq]
  exact hr

theorem mono_of_tokens_eq (s s' : Store) (hnd : (s.tokens.map Token.jti).Nodup)
    (h : s'.tokens = s.tokens) : RevokedMono s s' :=
  mono_of_sub s s' hnd (by rw [h]; exact fun x hx => hx)

theorem mono_of_map (s s' : Store) (hnd : (s.tokens.map Token.jti).Nodup)
    (f : Token → Token) (h : s'.tokens = s.tokens.map f)
    (hjti : ∀ x, (f x).jti = x.jti)
    (hrev : ∀ x, x.revoked = true → (f x).revoked = true) : RevokedMono s s' := by
  intro t ht hr t' ht' hj
  rw [h] at ht'
  obtain ⟨t0, ht0, rfl⟩ := List.mem_map.mp ht'
  have hj0 : t0.jti = t.jti := by rw [← hjti t0]; exact hj
  have heq := List.inj_on_of_nodup_map hnd ht0 ht hj0
  rw [heq]
  exact hrev t hr

theorem mono_of_append (s s' : Store) (hnd : (s.tokens.map Token.jti).Nodup)
    (l : List Token) (h : s'.tokens = s.tokens ++ l)
    (hfresh : ∀ n ∈ l, ∀ t ∈ s.tokens, n.jti ≠ t.jti) : RevokedMono s s' := by
  intro t ht hr t' ht' hj
  rw [h] at ht'
  rcases List.mem_append.mp ht' with h1 | h1
  · have heq := List.inj_on_of_nodup_map hnd h1 ht hj
    rw [heq]
    exact hr
  · exact absurd hj (hfresh t' h1 t ht)

/-- `get_current_user` never writes to the store (the one revoke it attempts
is not awaited). -/
theorem get_current_user_state (c : Cred) (n : Nat) (s : Store) :
    (get_current_user c n s).snd = s := by
  unfold get_current_user
  repeat' split
  all_goals rfl

/-- `get_current_active_user` never writes to the store. -/
theorem get_current_active_user_state (c : Cred) (n : Nat) (s : Store) :
    (get_current_active_user c n s).snd = s := by
  unfold get_current_active_user
  have hs := get_current_user_state c n s
  rcases hgc : get_current_user c n s with ⟨r, s2⟩
  rw [hgc] at hs
  simp only at hs
  cases r with
  | error e => simpa using hs
  | ok u =>
    by_cases hu : u.is_active = true <;> simp [hu, hs]

/-- A failed `any`-scan of the token table by jti gives freshness. -/
theorem fresh_of_any_false (l : List Token) (j : String)
    (h : l.any (fun t => t.jti == j) = false) : ∀ t ∈ l, j ≠ t.jti := by
  rw [List.any_eq_false] at h
  intro t ht hcon
  exact h t ht (by rw [hcon]; simp)

/-- No route of the signup flow touches the token table. -/
theorem signup_tokens (un e pw oc : String) (nu no : Nat) (s : Store) :
    (signup un e pw oc nu no s).snd.tokens = s.tokens := by
  unfold signup
  repeat' split
  all_goals try rfl
  all_goals (dsimp only; split <;> rfl)

/-- OTP issuance touches only the OTP table. -/
theorem send_email_verification_tokens (e oc : String) (no : Nat) (s : Store) :
    (send_email_verification e oc no s).snd.tokens = s.tokens := by
  unfold send_email_verification
  repeat' split
  all_goals rfl

/-- Email confirmation touches only users and OTPs. -/
theorem verify_email_tokens (e o : String) (s : Store) :
    (verify_email e o s).snd.tokens = s.tokens := by
  unfold verify_email
  repeat' split
  all_goals rfl

/-- The forgot-password route performs no store write (the reset token is not
ledgered). -/
theorem forgot_password_state (e rj : String) (n : Nat) (s : Store) :
    (forgot_password e rj n s).snd = s := by
  unfold forgot_password
  repeat' split
  all_goals rfl

/-- Password reset touches only the user row. -/
theorem reset_password_tokens (c : Cred) (pw : String) (n : Nat) (s : Store) :
    (reset_password c pw n s).snd.tokens = s.tokens := by
  unfold reset_password
  repeat' split
  all_goals rfl

/-- Change-password touches only the user row. -/
theorem change_password_tokens (c : Cred) (np op : String) (n : Nat) (s : Store) :
    (change_password c np op n s).snd.tokens = s.tokens := by
  unfold change_password
  have hs := get_current_active_user_state c n s
  rcases hgc : get_current_active_user c n s with ⟨r, s2⟩
  rw [hgc] at hs
  simp only at hs
  subst hs
  cases r with
  | error e => rfl
  | ok u =>
    dsimp only
    repeat' split
    all_goals rfl

theorem mono_logout (s : Store) (hnd : (s.tokens.map Token.jti).Nodup)
    (c : Cred) (n : Nat) : RevokedMono s (logout c n s).snd := by
  unfold logout
  cases hv : verify_payload c n with
  | error e => exact mono_of_tokens_eq s _ hnd rfl
  | ok p =>
    obtain ⟨_x, jti⟩ := p
    dsimp only
    cases hT : get_token_by_jti s jti with
    | none => exact mono_of_tokens_eq s _ hnd rfl
    | some tok =>
      dsimp only
      cases hrev : tok.revoked with
      | true => exact mono_of_tokens_eq s _ hnd rfl
      | false =>
        exact mono_of_map s _ hnd _ rfl
          (fun x => by by_cases h : (x.jti == tok.jti) = true <;> simp [h])
          (fun x hx => by
            by_cases h : (x.jti == tok.jti) = true <;> simp [h, hx])

theorem mono_logout_all (s : Store) (hnd : (s.tokens.map Token.jti).Nodup)
    (c : Cred) (n : Nat) : RevokedMono s (logout_all c n s).snd := by
  unfold logout_all
  have hs := get_current_active_user_state c n s
  rcases hgc : get_current_active_user c n s with ⟨r, s2⟩
  rw [hgc] at hs
  simp only at hs
  cases r with
  | error e =>
    dsimp only
    exact mono_of_tokens_eq s _ hnd (by rw [hs])
  | ok u =>
    dsimp only
    rw [hs]
    unfold revoke_active_tokens
    cases hu : get_user_by_id s u.id with
    | none => exact mono_of_tokens_eq s _ hnd rfl
    | some w =>
      dsimp only
      exact mono_of_map s _ hnd
        (fun t => if t.user_id == u.id && t.revoked == false then
            { t with revoked := true,
                     reason := some "User logged out from all devices",
                     revoked_at := some n }
          else t)
        rfl
        (fun x => by
          by_cases h : x.user_id = u.id ∧ x.revoked = false <;> simp [h])
        (fun x hx => by
          by_cases h : x.user_id = u.id ∧ x.revoked = false
          · simp [h]
          · simp [h, hx])

theorem mono_purge (s : Store) (hnd : (s.tokens.map Token.jti).Nodup) :
    RevokedMono s (delete_all_revoked_tokens s) :=
  mono_of_sub s _ hnd (fun x hx => (List.mem_filter.mp hx).1)

theorem mono_gtp (s : Store) (hnd : (s.tokens.map Token.jti).Nodup)
    (un : String) (uid : Nat) (aj rj : String) (n : Nat) :
    RevokedMono s (generate_token_pair s un uid aj rj n).snd := by
  by_cases h1 : (s.tokens.any (fun t => t.jti == aj)) = true
  · have hsnd : (generate_token_pair s un uid aj rj n).snd = s := by
      unfold generate_token_pair insert_token
      simp [h1]
    rw [hsnd]
    exact mono_of_tokens_eq s s hnd rfl
  · have h1f : (s.tokens.any (fun t => t.jti == aj)) = false :=
      Bool.eq_false_iff.mpr h1
    by_cases h2 : ((s.tokens ++
        [({ jti := aj, user_id := uid, access_jti := none,
            expires_at := n + access_token_expiry_minutes, revoked := false,
            revoked_at := none, reason := none,
            type := TokenType.ACCESS } : Token)]).any
          (fun t => t.jti == rj)) = true
    · have hsnd : (generate_token_pair s un uid aj rj n).snd =
          { s with tokens := s.tokens ++
            [{ jti := aj, user_id := uid, access_jti := none,
               expires_at := n + access_token_expiry_minutes, revoked := false,
               revoked_at := none, reason := none,
               type := TokenType.ACCESS }] } := by
        unfold generate_token_pair insert_token
        simp [h1f, h2]
      rw [hsnd]
      refine mono_of_append s _ hnd _ rfl ?_
      intro x hx t ht
      rcases List.mem_singleton.mp hx with rfl
      exact fresh_of_any_false s.tokens aj h1f t ht
    · have h2f := Bool.eq_false_iff.mpr h2
      have hsnd : (generate_token_pair s un uid aj rj n).snd =
          { s with tokens := s.tokens ++
            [{ jti := aj, user_id := uid, access_jti := none,
               expires_at := n + access_token_expiry_minutes, revoked := false,
               revoked_at := none, reason := none,
               type := TokenType.ACCESS },
             { jti := rj, user_id := uid, access_jti := some aj,
               expires_at := n + refresh_token_expiry_days, revoked := false,
               revoked_at := none, reason := none,
               type := TokenType.REFRESH }] } := by
        unfold generate_token_pair insert_token
        simp [h1f, h2f]
      rw [hsnd]
      refine mono_of_append s _ hnd _ rfl ?_
      intro x hx t ht
      have h2f' : ∀ t ∈ s.tokens, rj ≠ t.jti := by
        intro t2 ht2
        exact fresh_of_any_false _ rj h2f t2 (List.mem_append_left _ ht2)
      rcases List.mem_cons.mp hx with rfl | hx2
      · exact fresh_of_any_false s.tokens aj h1f t ht
      · rcases List.mem_singleton.mp hx2 with rfl
        exact h2f' t ht

theorem mono_login (s : Store) (hnd : (s.tokens.map Token.jti).Nodup)
    (e pw aj rj : String) (n : Nat) :
    RevokedMono s (login_for_access_token s e pw aj rj n).snd := by
  unfold login_for_access_token
  cases ha : authenticate s e pw with
  | none => exact mono_of_tokens_eq s _ hnd rfl
  | some u => exact mono_gtp s hnd u.username u.id aj rj n

/-- The relink map never clears a revoked flag. -/
theorem relink_pres_revoked (rjti newJti : String) (x : Token)
    (h : x.revoked = true) :
    ((fun t : Token => if t.jti == rjti then { t with access_jti := some newJti }
      else t) x).revoked = true := by
  by_cases c : (x.jti == rjti) = true <;> simp [c, h]

/-- The revoke map of rotation never clears a revoked flag. -/
theorem revoke_keeps_revoked (aj : String) (now : Nat) (x : Token)
    (h : x.revoked = true) :
    ((fun t : Token => if t.jti == aj then
      { t with revoked := true, revoked_at := some now,
               reason := some "Refresh token used" } else t) x).revoked = true := by
  by_cases c : (x.jti == aj) = true <;> simp [c, h]

theorem mono_refresh (s : Store) (hnd : (s.tokens.map Token.jti).Nodup)
    (c : Cred) (n : Nat) (nj : String) :
    RevokedMono s (refresh_access_token c n nj s).snd := by
  unfold refresh_access_token
  cases hv : verify_payload c n with
  | error e => exact mono_of_tokens_eq s _ hnd rfl
  | ok p =>
    obtain ⟨un, jti⟩ := p
    dsimp only
    cases hT : get_token_by_jti s jti with
    | none => exact mono_of_tokens_eq s _ hnd rfl
    | some st =>
      dsimp only
      cases hrev : st.revoked with
      | true => exact mono_of_tokens_eq s _ hnd rfl
      | false =>
        simp only [Bool.false_eq_true, if_false]
        cases hu : get_user_by_username s un with
        | none => exact mono_of_tokens_eq s _ hnd rfl
        | some u =>
          dsimp only
          cases hb : st.access_jti.bind (get_token_by_jti s) with
          | none => exact mono_of_tokens_eq s _ hnd rfl
          | some old =>
            dsimp only
            simp only [insert_token]
            by_cases hins : (((revoke_token s old.jti (some "Refresh token used")
                n).tokens).any (fun t => t.jti == nj)) = true
            · rw [if_pos hins]
              exact mono_of_map s _ hnd
                (fun t => if t.jti == old.jti then
                    { t with revoked := true, revoked_at := some n,
                             reason := some "Refresh token used" }
                  else t)
                rfl
                (fun x => by by_cases h : x.jti = old.jti <;> simp [h])
                (fun x hx => by
                  by_cases h : x.jti = old.jti <;> simp [h, hx])
            · rw [if_neg hins]
              have hinsf : ((revoke_token s old.jti (some "Refresh token used")
                  n).tokens.any (fun t => t.jti == nj)) = false :=
                Bool.eq_false_iff.mpr hins
              intro t ht hr t' ht' hj
              dsimp only at ht'
              obtain ⟨x, hx, rfl⟩ := List.mem_map.mp ht'
              rcases List.mem_append.mp hx with hx1 | hx1
              · obtain ⟨t0, ht0, rfl⟩ := List.mem_map.mp hx1
                have hjeq : t0.jti = t.jti := by
                  have e2 := relink_pres_jti st.jti nj
                    ((fun t : Token => if t.jti == old.jti then
                        { t with revoked := true, revoked_at := some n,
                                 reason := some "Refresh token used" }
                      else t) t0)
                  have e1 := revoke_pres_jti old.jti n t0
                  rw [← e1, ← e2]
                  exact hj
                have heq := List.inj_on_of_nodup_map hnd ht0 ht hjeq
                subst heq
                exact relink_pres_revoked st.jti nj _
                  (revoke_keeps_revoked old.jti n t0 hr)
              · rcases List.mem_singleton.mp hx1 with rfl
                exfalso
                have e2 := relink_pres_jti st.jti nj
                  ({ jti := nj, user_id := u.id, access_jti := none,
                     expires_at := n + access_token_expiry_minutes,
                     revoked := false, revoked_at := none, reason := none,
                     type := TokenType.ACCESS } : Token)
                have hjt : nj = t.jti := by rw [← hj, e2]
                have hf := fresh_of_any_false _ nj hinsf
                have hg1mem : ((fun t : Token => if t.jti == old.jti then
                    { t with revoked := true, revoked_at := some n,
                             reason := some "Refresh token used" }
                  else t) t) ∈
                    (revoke_token s old.jti (some "Refresh token used") n).tokens := by
                  unfold revoke_token
                  exact List.mem_map_of_mem _ ht
                have hcontr := hf _ hg1mem
                rw [revoke_pres_jti old.jti n t] at hcontr
                exact hcontr hjt

/-- **C10.** Revocation is monotonic across the whole interface: for every
store whose token table satisfies the storage-level jti-uniqueness constraint
and every operation of the system (login, refresh, logout, logout-all, purge,
signup, the OTP flows, the password flows, and principal resolution), any
token row whose revoked flag is true before the operation either still has
`revoked = true` afterwards or has been deleted — no operation resets a
revoked flag to false. -/
theorem C10_revocation_monotonic (op : Op) (s : Store)
    (hnd : (s.tokens.map Token.jti).Nodup) :
    ∀ t ∈ s.tokens, t.revoked = true →
      ∀ t' ∈ (applyOp op s).tokens, t'.jti = t.jti → t'.revoked = true := by
  cases op with
  | opLogin e pw aj rj now => exact mono_login s hnd e pw aj rj now
  | opRefresh a now njj => exact mono_refresh s hnd a now njj
  | opLogout t now => exact mono_logout s hnd t now
  | opLogoutAll t now => exact mono_logout_all s hnd t now
  | opPurgeRevoked => exact mono_purge s hnd
  | opSignup un e pw oc nu no =>
      exact mono_of_tokens_eq s _ hnd (signup_tokens un e pw oc nu no s)
  | opSendEmailVerification e oc no =>
      exact mono_of_tokens_eq s _ hnd (send_email_verification_tokens e oc no s)
  | opVerifyEmail e o =>
      exact mono_of_tokens_eq s _ hnd (verify_email_tokens e o s)
  | opForgotPassword e rj now =>
      exact mono_of_tokens_eq s _ hnd
        (by show (forgot_password e rj now s).snd.tokens = s.tokens; rw [forgot_password_state])
  | opResetPassword a pw now =>
      exact mono_of_tokens_eq s _ hnd (reset_password_tokens a pw now s)
  | opChangePassword t np op2 now =>
      exact mono_of_tokens_eq s _ hnd (change_password_tokens t np op2 now s)
  | opResolvePrincipal t now =>
      exact mono_of_tokens_eq s _ hnd
        (by show (get_current_user t now s).snd.tokens = s.tokens; rw [get_current_user_state])

/-- Witness for C10: a logout on `storeM` keeps the already-revoked `tokRev`
revoked. -/
theorem C10_witness :
    ((storeM.tokens.map Token.jti).Nodup ∧ tokRev ∈ storeM.tokens ∧
      tokRev.revoked = true) ∧
    (∀ t' ∈ (applyOp (Op.opLogout (Cred.signed "alice" "jA1" 100 true) 50)
        storeM).tokens, t'.jti = tokRev.jti → t'.revoked = true) :=
  ⟨⟨by decide, by decide, by decide⟩,
    C10_revocation_monotonic (Op.opLogout (Cred.signed "alice" "jA1" 100 true) 50)
      storeM (by decide) tokRev (by decide) (by decide)⟩

end OCMS
